import Mathlib

/-!
Shallow embedding of `src/run.ts` from the
`project-closed-issue-move-to-top-action` repository.

The remote GraphQL surface is modelled by an `Octokit` record of response
functions; every remote call records a `Call` in a trace and each embedded
function returns its trace together with an `Except` outcome, mirroring the
awaited promise that either resolves or throws.  Optional-chaining reads of
the JavaScript response objects become `Option.bind` / `Option.map`, and the
JavaScript truthiness tests on strings (`if (!issueNodeId)`, `if (projectId)`)
are modelled exactly, with the empty string falsy.
-/

namespace MoveToTop

/-- One entry of a GraphQL error payload, `{ type?: string }` in the source. -/
structure GraphQLErrorItem where
  type : Option String
  deriving DecidableEq

/-- An error raised by a remote call: either an object carrying an `errors`
key (possibly `undefined`), as produced by the GraphQL client, or any other
thrown value (network failure, auth failure, ...). -/
inductive RemoteError where
  | graphqlError (errors : Option (List GraphQLErrorItem))
  | plainError (msg : String)
  deriving DecidableEq

/-- An error surfaced by the embedded program: either a `new Error(msg)`
thrown by the code itself, or a re-thrown remote error. -/
inductive RunError where
  | thrown (msg : String)
  | remote (e : RemoteError)
  deriving DecidableEq

/-- `{ id: string }`, the shape of `projectV2` nodes and of an item's
`project` field. -/
structure ProjectV2Node where
  id : String
  deriving DecidableEq

/-- `organization` / `user` branch of `ProjectQueryResponse`:
`{ projectV2?: { id: string } }`. -/
structure OwnerNode where
  projectV2 : Option ProjectV2Node
  deriving DecidableEq

/-- `ProjectQueryResponse` from the source. -/
structure ProjectQueryResponse where
  organization : Option OwnerNode
  user : Option OwnerNode
  deriving DecidableEq

/-- `{ id, name }` option of a single-select field. -/
structure FieldOption where
  id : String
  name : String
  deriving DecidableEq

/-- The `field` part of `FieldQueryResponse`:
`{ id, name, options?: Array<{id, name}> }`. -/
structure SingleSelectField where
  id : String
  name : String
  options : Option (List FieldOption)
  deriving DecidableEq

/-- The `node` part of `FieldQueryResponse`. -/
structure FieldNode where
  field : Option SingleSelectField
  deriving DecidableEq

/-- `FieldQueryResponse` from the source. -/
structure FieldQueryResponse where
  node : Option FieldNode
  deriving DecidableEq

/-- `fieldValueByName?: { name?: string }` on a project item. -/
structure FieldValueByName where
  name : Option String
  deriving DecidableEq

/-- `ProjectItem` from the source. -/
structure ProjectItem where
  id : String
  project : ProjectV2Node
  fieldValueByName : Option FieldValueByName
  deriving DecidableEq

/-- `projectItems: { nodes: ProjectItem[] }`. -/
structure ProjectItemsConnection where
  nodes : List ProjectItem
  deriving DecidableEq

/-- The `node` part of `ProjectItemsQueryResponse`. -/
structure ItemsNode where
  projectItems : Option ProjectItemsConnection
  deriving DecidableEq

/-- `ProjectItemsQueryResponse` from the source. -/
structure ProjectItemsQueryResponse where
  node : Option ItemsNode
  deriving DecidableEq

/-- `Inputs` from the source. -/
structure Inputs where
  projectNumber : Int
  organization : String
  statusName : String
  deriving DecidableEq

/-- The `issue` record of the triggering event payload; `node_id` may be
absent at runtime (the source checks its truthiness). -/
structure IssuePayload where
  number : Int
  node_id : Option String
  deriving DecidableEq

/-- The event payload, restricted to the part the program reads. -/
structure Payload where
  issue : IssuePayload
  deriving DecidableEq

/-- The action context, restricted to the part the program reads. -/
structure Context where
  payload : Payload
  deriving DecidableEq

/-- One remote GraphQL request, recording the query shape and every value the
source supplies to it (variables and in-query literals such as `first: 10`
and `name: "Status"`). -/
inductive Call where
  | orgProject (login : String) (projectNumber : Int)
  | userProject (login : String) (projectNumber : Int)
  | projectItems (issueNodeId : String) (first : Nat) (fieldName : String)
  | statusField (projectId : String) (fieldName : String) (statusName : String)
  | updateStatus (projectId itemId fieldId optionId : String)
  | moveToTop (projectId itemId : String)
  deriving DecidableEq

/-- The remote endpoint: for each query shape, the response (or error) the
remote system would give to given arguments.  This is the abstract
counterpart of the `octokit.graphql` client. -/
structure Octokit where
  orgProjectQuery : String → Int → Except RemoteError ProjectQueryResponse
  userProjectQuery : String → Int → Except RemoteError ProjectQueryResponse
  projectItemsQuery : String → Nat → String → Except RemoteError ProjectItemsQueryResponse
  fieldQuery : String → String → String → Except RemoteError FieldQueryResponse
  updateStatusMutation : String → String → String → String → Except RemoteError Unit
  moveToTopMutation : String → String → Except RemoteError Unit

/-- JavaScript truthiness of a `string | undefined` value: `undefined` and
the empty string are falsy. -/
def truthyOptStr : Option String → Bool
  | some s => s ≠ ""
  | none => false

/-- `orgResponse.organization?.projectV2?.id`. -/
def orgProjectIdOf (r : ProjectQueryResponse) : Option String :=
  (r.organization.bind (fun o => o.projectV2)).map (fun p => p.id)

/-- `userResponse?.user?.projectV2?.id`. -/
def userProjectIdOf (r : ProjectQueryResponse) : Option String :=
  (r.user.bind (fun o => o.projectV2)).map (fun p => p.id)

/-- `isGraphQLError`: the thrown value is an object with an `errors` key. -/
def isGraphQLError : RemoteError → Bool
  | .graphqlError _ => true
  | .plainError _ => false

/-- `hasNotFoundError`: `error.errors?.some((e) => e.type === 'NOT_FOUND') ?? false`. -/
def hasNotFoundError : RemoteError → Bool
  | .graphqlError errs =>
      (errs.map (fun es => es.any (fun e => e.type == some "NOT_FOUND"))).getD false
  | .plainError _ => false

/-- `response.node?.projectItems?.nodes || []` on the items response. -/
def itemNodesOf (r : ProjectItemsQueryResponse) : List ProjectItem :=
  ((r.node.bind (fun n => n.projectItems)).map (fun c => c.nodes)).getD []

/-- `response.node?.field` on the field response. -/
def fieldOf (r : FieldQueryResponse) : Option SingleSelectField :=
  r.node.bind (fun n => n.field)

/-- `statusField.options?.[0]`. -/
def firstOptionOf (f : SingleSelectField) : Option FieldOption :=
  f.options.bind (fun os => os.head?)

/-- `projectItem.fieldValueByName?.name`. -/
def currentStatusOf (item : ProjectItem) : Option String :=
  item.fieldValueByName.bind (fun v => v.name)

/-- The message of the final `throw` of `fetchProjectId`:
`` `Project #${projectNumber} not found for ${organization}` ``. -/
def notFoundMessage (projectNumber : Int) (organization : String) : String :=
  "Project #" ++ toString projectNumber ++ " not found for " ++ organization

/-- Sequencing of two traced computations: the second runs only when the
first succeeds; traces concatenate, errors propagate with the trace made so
far. -/
def andThen (x : List Call × Except RunError α) (f : α → List Call × Except RunError β) :
    List Call × Except RunError β :=
  match x with
  | (t, .error e) => (t, .error e)
  | (t, .ok a) => ((f a).1 |> (t ++ ·), (f a).2)

/-- The user-query half of `fetchProjectId` (lines 119-150 of `run.ts`):
issue the `user(login:)` query; return a truthy project id, swallow a
NOT_FOUND-classed error, re-throw any other error, and otherwise fall
through to the final `Project #... not found` throw. -/
def fetchProjectIdUser (ok : Octokit) (organization : String) (projectNumber : Int) :
    List Call × Except RunError String :=
  ([Call.userProject organization projectNumber],
   match ok.userProjectQuery organization projectNumber with
   | .ok resp =>
       match userProjectIdOf resp with
       | some pid =>
           if pid ≠ "" then .ok pid
           else .error (.thrown (notFoundMessage projectNumber organization))
       | none => .error (.thrown (notFoundMessage projectNumber organization))
   | .error e =>
       if isGraphQLError e && hasNotFoundError e then
         .error (.thrown (notFoundMessage projectNumber organization))
       else .error (.remote e))

/-- `fetchProjectId`: try the organization query first; return a truthy
project id; on a NOT_FOUND-classed error, or on a response without a truthy
project id, fall through to the user query; re-throw any other error. -/
def fetchProjectId (ok : Octokit) (organization : String) (projectNumber : Int) :
    List Call × Except RunError String :=
  let fallback := fetchProjectIdUser ok organization projectNumber
  match ok.orgProjectQuery organization projectNumber with
  | .ok resp =>
      match orgProjectIdOf resp with
      | some pid =>
          if pid ≠ "" then ([Call.orgProject organization projectNumber], .ok pid)
          else (Call.orgProject organization projectNumber :: fallback.1, fallback.2)
      | none => (Call.orgProject organization projectNumber :: fallback.1, fallback.2)
  | .error e =>
      if isGraphQLError e && hasNotFoundError e then
        (Call.orgProject organization projectNumber :: fallback.1, fallback.2)
      else ([Call.orgProject organization projectNumber], .error (.remote e))

/-- `fetchStatusFieldDetails`: query the project's field literally named
`"Status"` with the options filtered server-side to `statusName`; throw when
no field comes back, throw when the filtered options are empty, otherwise
return the field id and the first option's id. -/
def fetchStatusFieldDetails (ok : Octokit) (projectId : String) (statusName : String) :
    List Call × Except RunError (String × String) :=
  ([Call.statusField projectId "Status" statusName],
   match ok.fieldQuery projectId "Status" statusName with
   | .error e => .error (.remote e)
   | .ok resp =>
       match fieldOf resp with
       | none => .error (.thrown "Status field not found in project")
       | some statusField =>
           match firstOptionOf statusField with
           | none =>
               .error (.thrown ("Status option \"" ++ statusName ++ "\" not found in Status field"))
           | some option => .ok (statusField.id, option.id))

/-- `fetchProjectItemForIssue`: query the issue's project memberships
(`first: 10`, annotated with the `"Status"` field value), default the nodes
to `[]`, and return the first membership whose `project.id` equals the
resolved project id, or `none`. -/
def fetchProjectItemForIssue (ok : Octokit) (issueNodeId : String) (projectId : String) :
    List Call × Except RunError (Option ProjectItem) :=
  ([Call.projectItems issueNodeId 10 "Status"],
   match ok.projectItemsQuery issueNodeId 10 "Status" with
   | .error e => .error (.remote e)
   | .ok resp =>
       .ok ((itemNodesOf resp).find? (fun item => item.project.id == projectId)))

/-- `updateProjectItemStatus`: the `updateProjectV2ItemFieldValue` mutation. -/
def updateProjectItemStatus (ok : Octokit) (projectId itemId fieldId optionId : String) :
    List Call × Except RunError Unit :=
  ([Call.updateStatus projectId itemId fieldId optionId],
   match ok.updateStatusMutation projectId itemId fieldId optionId with
   | .ok _ => .ok ()
   | .error e => .error (.remote e))

/-- `moveItemToTop`: the `updateProjectV2ItemPosition` mutation with
`afterId: null`. -/
def moveItemToTop (ok : Octokit) (projectId itemId : String) :
    List Call × Except RunError Unit :=
  ([Call.moveToTop projectId itemId],
   match ok.moveToTopMutation projectId itemId with
   | .ok _ => .ok ()
   | .error e => .error (.remote e))

/-- The orchestrator `run`: check the issue node id (truthiness), resolve
the project, locate the project item (absence is a successful no-op), set
the status when the current status differs from the target, and finally
move the item to the top. -/
def run (inputs : Inputs) (ok : Octokit) (ctx : Context) :
    List Call × Except RunError Unit :=
  match ctx.payload.issue.node_id with
  | none => ([], .error (.thrown "Issue node ID is not available from the event context"))
  | some issueNodeId =>
    if issueNodeId = "" then
      ([], .error (.thrown "Issue node ID is not available from the event context"))
    else
      andThen (fetchProjectId ok inputs.organization inputs.projectNumber) (fun projectId =>
      andThen (fetchProjectItemForIssue ok issueNodeId projectId) (fun projectItem =>
      match projectItem with
      | none => ([], .ok ())
      | some item =>
        andThen
          (if currentStatusOf item ≠ some inputs.statusName then
            andThen (fetchStatusFieldDetails ok projectId inputs.statusName) (fun fo =>
              updateProjectItemStatus ok projectId item.id fo.1 fo.2)
          else ([], .ok ()))
          (fun _ => moveItemToTop ok projectId item.id)))

/-- Calls that write to the remote system (`updateProjectV2ItemFieldValue`
and `updateProjectV2ItemPosition`); all other calls are read-only queries. -/
def Call.isMutation : Call → Bool
  | .updateStatus _ _ _ _ => true
  | .moveToTop _ _ => true
  | _ => false

/-- The status-set mutation calls. -/
def Call.isUpdateStatus : Call → Bool
  | .updateStatus _ _ _ _ => true
  | _ => false

/-- The reposition mutation calls. -/
def Call.isMoveToTop : Call → Bool
  | .moveToTop _ _ => true
  | _ => false

/-- A field of a project's schema, as the remote system stores it. -/
structure ProjectField where
  id : String
  name : String
  isSingleSelect : Bool
  options : List FieldOption
  deriving DecidableEq

/-- The response the remote system gives to the field query of
`fetchStatusFieldDetails`, derived from the query text
`field(name: "Status") \x7b ... on ProjectV2SingleSelectField \x7b id name
options(names: [$statusName]) ... \x7d \x7d`: the project's single-select
field with the requested name, its options filtered to those whose name
matches `statusName` exactly. -/
def fieldQueryResponseFor (fields : List ProjectField) (fieldName statusName : String) :
    FieldQueryResponse :=
  ⟨some ⟨(fields.find? (fun f => f.isSingleSelect && f.name == fieldName)).map
    (fun f => ⟨f.id, f.name, some (f.options.filter (fun o => o.name == statusName))⟩)⟩⟩

/-! Concrete data used to instantiate the theorems below. -/

/-- An organization response exposing project `PVT_1`. -/
def orgOkResponse : ProjectQueryResponse := ⟨some ⟨some ⟨"PVT_1"⟩⟩, none⟩

/-- A project item of `PVT_1` whose Status is `In Progress`. -/
def itemInProgress : ProjectItem := ⟨"PVTI_1", ⟨"PVT_1"⟩, some ⟨some "In Progress"⟩⟩

/-- A project item of `PVT_1` whose Status is `Done`. -/
def itemDone : ProjectItem := ⟨"PVTI_1", ⟨"PVT_1"⟩, some ⟨some "Done"⟩⟩

/-- A project item of `PVT_1` whose Status field was never set. -/
def itemNoValue : ProjectItem := ⟨"PVTI_1", ⟨"PVT_1"⟩, none⟩

/-- A project item belonging to a different project. -/
def itemOtherProject : ProjectItem := ⟨"PVTI_2", ⟨"PVT_other"⟩, none⟩

/-- The option `Done` of the Status field. -/
def doneOption : FieldOption := ⟨"O_done", "Done"⟩

/-- A project schema with a single-select `Status` field carrying `Done`
and `In Progress` options. -/
def doneFields : List ProjectField :=
  [⟨"F1", "Status", true, [doneOption, ⟨"O_prog", "In Progress"⟩]⟩]

/-- An endpoint where everything succeeds and the issue's sole project
membership is `item`. -/
def happyOctokit (item : ProjectItem) : Octokit where
  orgProjectQuery := fun _ _ => .ok orgOkResponse
  userProjectQuery := fun _ _ => .ok ⟨none, none⟩
  projectItemsQuery := fun _ _ _ => .ok ⟨some ⟨some ⟨[item]⟩⟩⟩
  fieldQuery := fun _ _ sname => .ok (fieldQueryResponseFor doneFields "Status" sname)
  updateStatusMutation := fun _ _ _ _ => .ok ()
  moveToTopMutation := fun _ _ => .ok ()

/-- A GraphQL error classified `FORBIDDEN` (an authorization failure). -/
def forbiddenError : RemoteError := .graphqlError (some [⟨some "FORBIDDEN"⟩])

/-- A GraphQL error classified `NOT_FOUND`. -/
def notFoundRemoteError : RemoteError := .graphqlError (some [⟨some "NOT_FOUND"⟩])

/-- An endpoint whose organization query fails with an authorization
error. -/
def orgForbiddenOctokit : Octokit where
  orgProjectQuery := fun _ _ => .error forbiddenError
  userProjectQuery := fun _ _ => .ok ⟨none, some ⟨some ⟨"PVT_u"⟩⟩⟩
  projectItemsQuery := fun _ _ _ => .ok ⟨some ⟨some ⟨[]⟩⟩⟩
  fieldQuery := fun _ _ _ => .ok ⟨none⟩
  updateStatusMutation := fun _ _ _ _ => .ok ()
  moveToTopMutation := fun _ _ => .ok ()

/-- An endpoint whose organization query succeeds without any project
(`organization: null`) while the user query succeeds with a project. -/
def orgEmptyOctokit : Octokit where
  orgProjectQuery := fun _ _ => .ok ⟨none, none⟩
  userProjectQuery := fun _ _ => .ok ⟨none, some ⟨some ⟨"PVT_u"⟩⟩⟩
  projectItemsQuery := fun _ _ _ => .ok ⟨some ⟨some ⟨[]⟩⟩⟩
  fieldQuery := fun _ _ _ => .ok ⟨none⟩
  updateStatusMutation := fun _ _ _ _ => .ok ()
  moveToTopMutation := fun _ _ => .ok ()

/-- An endpoint where both owner lookups fail with `NOT_FOUND`. -/
def ghostOctokit : Octokit where
  orgProjectQuery := fun _ _ => .error notFoundRemoteError
  userProjectQuery := fun _ _ => .error notFoundRemoteError
  projectItemsQuery := fun _ _ _ => .ok ⟨some ⟨some ⟨[]⟩⟩⟩
  fieldQuery := fun _ _ _ => .ok ⟨none⟩
  updateStatusMutation := fun _ _ _ _ => .ok ()
  moveToTopMutation := fun _ _ => .ok ()

/-- Twelve project memberships, each in a distinct project `P_i`. -/
def manyItems : List ProjectItem :=
  (List.range 12).map (fun i => ⟨"PVTI_" ++ toString i, ⟨"P_" ++ toString i⟩, none⟩)

/-- An endpoint honouring the page bound: the items query returns the first
`first` memberships of `manyItems`. -/
def pagedOctokit : Octokit where
  orgProjectQuery := fun _ _ => .ok orgOkResponse
  userProjectQuery := fun _ _ => .ok ⟨none, none⟩
  projectItemsQuery := fun _ first _ => .ok ⟨some ⟨some ⟨manyItems.take first⟩⟩⟩
  fieldQuery := fun _ _ _ => .ok ⟨none⟩
  updateStatusMutation := fun _ _ _ _ => .ok ()
  moveToTopMutation := fun _ _ => .ok ()

/-- A context whose payload carries issue number 1 with node id `I_1`. -/
def ctxIssue : Context := ⟨⟨⟨1, some "I_1"⟩⟩⟩

/-- A context whose payload's issue record has no node id. -/
def ctxNoNodeId : Context := ⟨⟨⟨1, none⟩⟩⟩

/-- Inputs targeting project 1 of `acme` with status `Done`. -/
def inputsDone : Inputs := ⟨1, "acme", "Done"⟩

/-! Theorems. -/

theorem andThen_ok (t : List Call) (a : α) (f : α → List Call × Except RunError β) :
    andThen (t, .ok a) f = (t ++ (f a).1, (f a).2) := rfl

theorem andThen_error (t : List Call) (e : RunError) (f : α → List Call × Except RunError β) :
    andThen (t, .error e) f = (t, .error e) := rfl

theorem fetchProjectIdUser_trace (ok : Octokit) (org : String) (n : Int) :
    (fetchProjectIdUser ok org n).1 = [Call.userProject org n] := rfl

/-- Owner resolution issues either just the organization query, or the
organization query followed by the user query. -/
theorem fetchProjectId_trace (ok : Octokit) (org : String) (n : Int) :
    (fetchProjectId ok org n).1 = [Call.orgProject org n] ∨
    (fetchProjectId ok org n).1 = [Call.orgProject org n, Call.userProject org n] := by
  simp only [fetchProjectId]
  cases h : ok.orgProjectQuery org n with
  | ok resp =>
      cases hid : orgProjectIdOf resp with
      | some pid =>
          by_cases hpid : pid = ""
          · right; simp [hid, hpid, fetchProjectIdUser_trace]
          · left; simp [hid, hpid]
      | none => right; simp [hid, fetchProjectIdUser_trace]
  | error e =>
      by_cases hnf : (isGraphQLError e && hasNotFoundError e) = true
      · right; simp [hnf, fetchProjectIdUser_trace]
      · left; simp [hnf]

/-- C8: when the triggering payload's issue record lacks an issue node id,
`run` raises the configuration error with an empty call trace — zero
queries and zero mutations are issued. -/
theorem run_missing_issue_id (inputs : Inputs) (ok : Octokit) (ctx : Context)
    (h : ctx.payload.issue.node_id = none) :
    run inputs ok ctx =
      ([], .error (.thrown "Issue node ID is not available from the event context")) := by
  simp [run, h]

/-- Witness for `run_missing_issue_id` at a concrete context. -/
theorem run_missing_issue_id_witness :
    run inputsDone (happyOctokit itemDone) ctxNoNodeId =
      ([], .error (.thrown "Issue node ID is not available from the event context")) :=
  run_missing_issue_id inputsDone (happyOctokit itemDone) ctxNoNodeId rfl

/-- C4: when the issue is not linked to the resolved project, the run
performs exactly the owner-resolution calls followed by the single
item-location call, issues zero mutation calls, and completes
successfully. -/
theorem run_item_absent (inputs : Inputs) (ok : Octokit) (ctx : Context)
    (nid : String) (tOwner : List Call) (pid : String)
    (ritems : ProjectItemsQueryResponse)
    (hnid : ctx.payload.issue.node_id = some nid) (hne : nid ≠ "")
    (hproj : fetchProjectId ok inputs.organization inputs.projectNumber = (tOwner, .ok pid))
    (hitems : ok.projectItemsQuery nid 10 "Status" = .ok ritems)
    (hfind : (itemNodesOf ritems).find? (fun item => item.project.id == pid) = none) :
    run inputs ok ctx = (tOwner ++ [Call.projectItems nid 10 "Status"], .ok ()) ∧
    ∀ c ∈ (run inputs ok ctx).1, c.isMutation = false := by
  have hrun : run inputs ok ctx = (tOwner ++ [Call.projectItems nid 10 "Status"], .ok ()) := by
    simp [run, hnid, hne, hproj, andThen, fetchProjectItemForIssue, hitems, hfind]
  refine ⟨hrun, ?_⟩
  have htr := fetchProjectId_trace ok inputs.organization inputs.projectNumber
  rw [hproj] at htr
  simp only at htr
  rw [hrun]
  rcases htr with h1 | h1 <;> subst h1 <;> simp [Call.isMutation]

/-- Witness for `run_item_absent` at a concrete endpoint where the issue's
only membership is in a different project. -/
theorem run_item_absent_witness :
    run inputsDone (happyOctokit itemOtherProject) ctxIssue =
      ([Call.orgProject "acme" 1] ++ [Call.projectItems "I_1" 10 "Status"], .ok ()) ∧
    ∀ c ∈ (run inputsDone (happyOctokit itemOtherProject) ctxIssue).1, c.isMutation = false :=
  run_item_absent inputsDone (happyOctokit itemOtherProject) ctxIssue "I_1"
    [Call.orgProject "acme" 1] "PVT_1" ⟨some ⟨some ⟨[itemOtherProject]⟩⟩⟩
    rfl (by decide) rfl rfl (by decide)

/-- C2: when the located item's current status differs from the target
status name (an exact, case-sensitive comparison of the optional current
value with the target), the run performs owner resolution, item location,
status-field resolution, the status-set mutation and the reposition
mutation, in exactly that order, and succeeds. -/
theorem run_status_differs (inputs : Inputs) (ok : Octokit) (ctx : Context)
    (nid : String) (tOwner : List Call) (pid : String)
    (ritems : ProjectItemsQueryResponse) (item : ProjectItem)
    (f : SingleSelectField) (o : FieldOption) (rfield : FieldQueryResponse)
    (hnid : ctx.payload.issue.node_id = some nid) (hne : nid ≠ "")
    (hproj : fetchProjectId ok inputs.organization inputs.projectNumber = (tOwner, .ok pid))
    (hitems : ok.projectItemsQuery nid 10 "Status" = .ok ritems)
    (hfind : (itemNodesOf ritems).find? (fun item => item.project.id == pid) = some item)
    (hstatus : currentStatusOf item ≠ some inputs.statusName)
    (hfield : ok.fieldQuery pid "Status" inputs.statusName = .ok rfield)
    (hf : fieldOf rfield = some f)
    (hopt : firstOptionOf f = some o)
    (hupd : ok.updateStatusMutation pid item.id f.id o.id = .ok ())
    (hmove : ok.moveToTopMutation pid item.id = .ok ()) :
    run inputs ok ctx =
      (tOwner ++ [Call.projectItems nid 10 "Status",
        Call.statusField pid "Status" inputs.statusName,
        Call.updateStatus pid item.id f.id o.id,
        Call.moveToTop pid item.id], .ok ()) := by
  simp [run, hnid, hne, hproj, andThen, fetchProjectItemForIssue, hitems, hfind, hstatus,
        fetchStatusFieldDetails, hfield, hf, hopt, updateProjectItemStatus, hupd,
        moveItemToTop, hmove]

/-- Witness for `run_status_differs`: an issue at `In Progress` moved to
`Done`, exercising all five remote calls in order. -/
theorem run_status_differs_witness :
    run inputsDone (happyOctokit itemInProgress) ctxIssue =
      ([Call.orgProject "acme" 1] ++ [Call.projectItems "I_1" 10 "Status",
        Call.statusField "PVT_1" "Status" "Done",
        Call.updateStatus "PVT_1" "PVTI_1" "F1" "O_done",
        Call.moveToTop "PVT_1" "PVTI_1"], .ok ()) :=
  run_status_differs inputsDone (happyOctokit itemInProgress) ctxIssue "I_1"
    [Call.orgProject "acme" 1] "PVT_1" ⟨some ⟨some ⟨[itemInProgress]⟩⟩⟩ itemInProgress
    ⟨"F1", "Status", some [doneOption]⟩ doneOption
    (fieldQueryResponseFor doneFields "Status" "Done")
    rfl (by decide) rfl rfl rfl (by decide) rfl rfl rfl rfl rfl

/-- C3: when the located item is already at the target status, the run
issues no status-field mutation, performs exactly one reposition call after
owner resolution and item location, and the reposition is the last
operation. -/
theorem run_status_equal (inputs : Inputs) (ok : Octokit) (ctx : Context)
    (nid : String) (tOwner : List Call) (pid : String)
    (ritems : ProjectItemsQueryResponse) (item : ProjectItem)
    (hnid : ctx.payload.issue.node_id = some nid) (hne : nid ≠ "")
    (hproj : fetchProjectId ok inputs.organization inputs.projectNumber = (tOwner, .ok pid))
    (hitems : ok.projectItemsQuery nid 10 "Status" = .ok ritems)
    (hfind : (itemNodesOf ritems).find? (fun item => item.project.id == pid) = some item)
    (hstatus : currentStatusOf item = some inputs.statusName)
    (hmove : ok.moveToTopMutation pid item.id = .ok ()) :
    run inputs ok ctx =
      (tOwner ++ [Call.projectItems nid 10 "Status", Call.moveToTop pid item.id], .ok ()) ∧
    (run inputs ok ctx).1.filter Call.isUpdateStatus = [] ∧
    (run inputs ok ctx).1.filter Call.isMoveToTop = [Call.moveToTop pid item.id] ∧
    ∃ t, (run inputs ok ctx).1 = t ++ [Call.moveToTop pid item.id] := by
  have hrun : run inputs ok ctx =
      (tOwner ++ [Call.projectItems nid 10 "Status", Call.moveToTop pid item.id], .ok ()) := by
    simp [run, hnid, hne, hproj, andThen, fetchProjectItemForIssue, hitems, hfind, hstatus,
          moveItemToTop, hmove]
  have htr := fetchProjectId_trace ok inputs.organization inputs.projectNumber
  rw [hproj] at htr
  simp only at htr
  refine ⟨hrun, ?_, ?_, ?_⟩
  · rw [hrun]; rcases htr with h1 | h1 <;> subst h1 <;> simp [Call.isUpdateStatus]
  · rw [hrun]; rcases htr with h1 | h1 <;> subst h1 <;> simp [Call.isMoveToTop]
  · exact ⟨tOwner ++ [Call.projectItems nid 10 "Status"], by rw [hrun]; simp⟩

/-- Witness for `run_status_equal`: an issue already at `Done` is only
repositioned. -/
theorem run_status_equal_witness :
    run inputsDone (happyOctokit itemDone) ctxIssue =
      ([Call.orgProject "acme" 1] ++ [Call.projectItems "I_1" 10 "Status",
        Call.moveToTop "PVT_1" "PVTI_1"], .ok ()) ∧
    (run inputsDone (happyOctokit itemDone) ctxIssue).1.filter Call.isUpdateStatus = [] ∧
    (run inputsDone (happyOctokit itemDone) ctxIssue).1.filter Call.isMoveToTop =
      [Call.moveToTop "PVT_1" "PVTI_1"] ∧
    ∃ t, (run inputsDone (happyOctokit itemDone) ctxIssue).1 =
      t ++ [Call.moveToTop "PVT_1" "PVTI_1"] :=
  run_status_equal inputsDone (happyOctokit itemDone) ctxIssue "I_1"
    [Call.orgProject "acme" 1] "PVT_1" ⟨some ⟨some ⟨[itemDone]⟩⟩⟩ itemDone
    rfl (by decide) rfl rfl rfl rfl rfl

/-- C10: when the located item's Status field was never set (its current
value is absent), the run treats it as differing from the target and
performs status-field resolution and the status-set mutation before the
reposition. -/
theorem run_status_absent (inputs : Inputs) (ok : Octokit) (ctx : Context)
    (nid : String) (tOwner : List Call) (pid : String)
    (ritems : ProjectItemsQueryResponse) (item : ProjectItem)
    (f : SingleSelectField) (o : FieldOption) (rfield : FieldQueryResponse)
    (hnid : ctx.payload.issue.node_id = some nid) (hne : nid ≠ "")
    (hproj : fetchProjectId ok inputs.organization inputs.projectNumber = (tOwner, .ok pid))
    (hitems : ok.projectItemsQuery nid 10 "Status" = .ok ritems)
    (hfind : (itemNodesOf ritems).find? (fun item => item.project.id == pid) = some item)
    (hstatus : currentStatusOf item = none)
    (hfield : ok.fieldQuery pid "Status" inputs.statusName = .ok rfield)
    (hf : fieldOf rfield = some f)
    (hopt : firstOptionOf f = some o)
    (hupd : ok.updateStatusMutation pid item.id f.id o.id = .ok ())
    (hmove : ok.moveToTopMutation pid item.id = .ok ()) :
    run inputs ok ctx =
      (tOwner ++ [Call.projectItems nid 10 "Status",
        Call.statusField pid "Status" inputs.statusName,
        Call.updateStatus pid item.id f.id o.id,
        Call.moveToTop pid item.id], .ok ()) := by
  simp [run, hnid, hne, hproj, andThen, fetchProjectItemForIssue, hitems, hfind, hstatus,
        fetchStatusFieldDetails, hfield, hf, hopt, updateProjectItemStatus, hupd,
        moveItemToTop, hmove]

/-- Witness for `run_status_absent`: an item with no Status value gets the
full status-set-then-reposition sequence. -/
theorem run_status_absent_witness :
    run inputsDone (happyOctokit itemNoValue) ctxIssue =
      ([Call.orgProject "acme" 1] ++ [Call.projectItems "I_1" 10 "Status",
        Call.statusField "PVT_1" "Status" "Done",
        Call.updateStatus "PVT_1" "PVTI_1" "F1" "O_done",
        Call.moveToTop "PVT_1" "PVTI_1"], .ok ()) :=
  run_status_absent inputsDone (happyOctokit itemNoValue) ctxIssue "I_1"
    [Call.orgProject "acme" 1] "PVT_1" ⟨some ⟨some ⟨[itemNoValue]⟩⟩⟩ itemNoValue
    ⟨"F1", "Status", some [doneOption]⟩ doneOption
    (fieldQueryResponseFor doneFields "Status" "Done")
    rfl (by decide) rfl rfl rfl rfl rfl rfl rfl rfl rfl

/-- Counterexample to C1 as stated: at `orgEmptyOctokit` the organization
lookup succeeds — it raises no error, let alone a not-found-classed one —
yet owner resolution still performs the individual-account (user) lookup. -/
theorem fetchProjectId_c1_counterexample :
    orgEmptyOctokit.orgProjectQuery "acme" 1 = .ok ⟨none, none⟩ ∧
    (fetchProjectId orgEmptyOctokit "acme" 1).1 =
      [Call.orgProject "acme" 1, Call.userProject "acme" 1] :=
  ⟨rfl, rfl⟩

/-- C1 (amended): owner resolution attempts the organization lookup first
and performs the user lookup exactly when the organization lookup fails
with a not-found-classed error or succeeds without yielding a truthy
project id; for every error of any other class the error propagates
immediately with the user lookup never attempted, and a truthy project id
ends resolution at the organization lookup alone. -/
theorem fetchProjectId_error_discrimination (ok : Octokit) (org : String) (n : Int) :
    (∀ e, ok.orgProjectQuery org n = .error e →
        (isGraphQLError e && hasNotFoundError e) = false →
        fetchProjectId ok org n = ([Call.orgProject org n], .error (.remote e))) ∧
    (∀ e, ok.orgProjectQuery org n = .error e →
        (isGraphQLError e && hasNotFoundError e) = true →
        (fetchProjectId ok org n).1 = [Call.orgProject org n, Call.userProject org n]) ∧
    (∀ resp, ok.orgProjectQuery org n = .ok resp →
        truthyOptStr (orgProjectIdOf resp) = false →
        (fetchProjectId ok org n).1 = [Call.orgProject org n, Call.userProject org n]) ∧
    (∀ resp pid, ok.orgProjectQuery org n = .ok resp →
        orgProjectIdOf resp = some pid → pid ≠ "" →
        fetchProjectId ok org n = ([Call.orgProject org n], .ok pid)) := by
  refine ⟨?_, ?_, ?_, ?_⟩
  · intro e he hnf; simp [fetchProjectId, he, hnf]
  · intro e he hnf; simp [fetchProjectId, he, hnf, fetchProjectIdUser_trace]
  · intro resp hr hid
    cases hido : orgProjectIdOf resp with
    | none => simp [fetchProjectId, hr, hido, fetchProjectIdUser_trace]
    | some pid =>
        rw [hido] at hid
        simp [truthyOptStr] at hid
        simp [fetchProjectId, hr, hido, hid, fetchProjectIdUser_trace]
  · intro resp pid hr hid hpid; simp [fetchProjectId, hr, hid, hpid]

/-- Witness for `fetchProjectId_error_discrimination`: an authorization
error on the organization lookup propagates with no user lookup issued. -/
theorem fetchProjectId_error_discrimination_witness :
    fetchProjectId orgForbiddenOctokit "acme" 1 =
      ([Call.orgProject "acme" 1], .error (.remote forbiddenError)) :=
  (fetchProjectId_error_discrimination orgForbiddenOctokit "acme" 1).1 forbiddenError rfl rfl

/-- C9: when the organization lookup succeeds but its response carries no
project id for the number, owner resolution still proceeds to the
individual-account lookup. -/
theorem fetchProjectId_fallback_on_empty_success (ok : Octokit) (org : String) (n : Int)
    (resp : ProjectQueryResponse)
    (horg : ok.orgProjectQuery org n = .ok resp)
    (hid : orgProjectIdOf resp = none) :
    (fetchProjectId ok org n).1 = [Call.orgProject org n, Call.userProject org n] := by
  simp [fetchProjectId, horg, hid, fetchProjectIdUser_trace]

/-- Witness for `fetchProjectId_fallback_on_empty_success`. -/
theorem fetchProjectId_fallback_on_empty_success_witness :
    (fetchProjectId orgEmptyOctokit "acme" 2).1 =
      [Call.orgProject "acme" 2, Call.userProject "acme" 2] :=
  fetchProjectId_fallback_on_empty_success orgEmptyOctokit "acme" 2 ⟨none, none⟩ rfl rfl

/-- C7: when neither the organization lookup nor the user lookup yields the
project (each fails with a not-found-classed error or succeeds without a
truthy project id), owner resolution fails with the error whose message
names both the project number and the owner name. -/
theorem fetchProjectId_not_found (ok : Octokit) (org : String) (n : Int)
    (horg : (∃ e, ok.orgProjectQuery org n = .error e ∧
              (isGraphQLError e && hasNotFoundError e) = true) ∨
            (∃ resp, ok.orgProjectQuery org n = .ok resp ∧
              truthyOptStr (orgProjectIdOf resp) = false))
    (huser : (∃ e, ok.userProjectQuery org n = .error e ∧
              (isGraphQLError e && hasNotFoundError e) = true) ∨
            (∃ resp, ok.userProjectQuery org n = .ok resp ∧
              truthyOptStr (userProjectIdOf resp) = false)) :
    (fetchProjectId ok org n).2 =
      .error (.thrown ("Project #" ++ toString n ++ " not found for " ++ org)) := by
  have huser2 : (fetchProjectIdUser ok org n).2 =
      .error (.thrown (notFoundMessage n org)) := by
    rcases huser with ⟨e, he, hnf⟩ | ⟨resp, hr, hid⟩
    · simp [fetchProjectIdUser, he, hnf]
    · cases hido : userProjectIdOf resp with
      | none => simp [fetchProjectIdUser, hr, hido]
      | some pid =>
          rw [hido] at hid
          simp [truthyOptStr] at hid
          simp [fetchProjectIdUser, hr, hido, hid]
  rcases horg with ⟨e, he, hnf⟩ | ⟨resp, hr, hid⟩
  · simp [fetchProjectId, he, hnf, huser2, notFoundMessage]
  · cases hido : orgProjectIdOf resp with
    | none => simp [fetchProjectId, hr, hido, huser2, notFoundMessage]
    | some pid =>
        rw [hido] at hid
        simp [truthyOptStr] at hid
        simp [fetchProjectId, hr, hido, hid, huser2, notFoundMessage]

/-- Witness for `fetchProjectId_not_found`: project 999 for owner `ghost`
fails naming 999 and ghost. -/
theorem fetchProjectId_not_found_witness :
    (fetchProjectId ghostOctokit "ghost" 999).2 =
      .error (.thrown ("Project #" ++ toString (999 : Int) ++ " not found for " ++ "ghost")) :=
  fetchProjectId_not_found ghostOctokit "ghost" 999
    (Or.inl ⟨notFoundRemoteError, rfl, rfl⟩) (Or.inl ⟨notFoundRemoteError, rfl, rfl⟩)

/-- C5: with the remote end honouring the `first: 10` page bound (it
returns the first ten of the issue's memberships), the item locator
returns the first fetched membership whose project id equals the resolved
project id; when no fetched membership matches, the result is `.ok none`
rather than an error; and any returned membership lies within the first
ten, so memberships beyond the bound are unreachable. -/
theorem fetchProjectItemForIssue_bounded (ok : Octokit) (nid pid : String)
    (ms : List ProjectItem)
    (h : ok.projectItemsQuery nid 10 "Status" = .ok ⟨some ⟨some ⟨ms.take 10⟩⟩⟩) :
    fetchProjectItemForIssue ok nid pid =
      ([Call.projectItems nid 10 "Status"],
        .ok ((ms.take 10).find? (fun item => item.project.id == pid))) ∧
    (∀ item, (ms.take 10).find? (fun i => i.project.id == pid) = some item →
        item ∈ ms.take 10) ∧
    ((∀ i ∈ ms.take 10, ¬ i.project.id = pid) →
        fetchProjectItemForIssue ok nid pid =
          ([Call.projectItems nid 10 "Status"], .ok none)) := by
  have hmain : fetchProjectItemForIssue ok nid pid =
      ([Call.projectItems nid 10 "Status"],
        .ok ((ms.take 10).find? (fun item => item.project.id == pid))) := by
    simp [fetchProjectItemForIssue, h, itemNodesOf]
  refine ⟨hmain, ?_, ?_⟩
  · intro item hfind
    exact List.mem_of_find?_eq_some hfind
  · intro hnone
    rw [hmain]
    have hfnone : (ms.take 10).find? (fun item => item.project.id == pid) = none := by
      rw [List.find?_eq_none]
      intro x hx
      simpa using hnone x hx
    rw [hfnone]

/-- Witness for `fetchProjectItemForIssue_bounded`: twelve memberships
where only the twelfth belongs to `P_11`; the page bound of ten makes the
match unreachable and the result is absent, not an error. -/
theorem fetchProjectItemForIssue_bounded_witness :
    fetchProjectItemForIssue pagedOctokit "I_1" "P_11" =
      ([Call.projectItems "I_1" 10 "Status"], .ok none) :=
  (fetchProjectItemForIssue_bounded pagedOctokit "I_1" "P_11" manyItems rfl).2.2 (by decide)

/-- C6: with the remote end answering the field query as the query text
prescribes (the single-select field named `Status`, options filtered to the
exactly matching name), the status resolver fails with the field-not-found
error when the project has no single-select field literally named `Status`,
fails with the option-not-found error when that field has no option whose
name exactly matches the requested status name, and on success returns the
field id paired with the id of an option exactly matching the requested
name. -/
theorem fetchStatusFieldDetails_contract (ok : Octokit) (pid sname : String)
    (fields : List ProjectField)
    (h : ok.fieldQuery pid "Status" sname = .ok (fieldQueryResponseFor fields "Status" sname)) :
    ((∀ f ∈ fields, ¬ (f.isSingleSelect = true ∧ f.name = "Status")) →
        (fetchStatusFieldDetails ok pid sname).2 =
          .error (.thrown "Status field not found in project")) ∧
    (∀ f, fields.find? (fun f => f.isSingleSelect && f.name == "Status") = some f →
        (∀ o ∈ f.options, o.name ≠ sname) →
        (fetchStatusFieldDetails ok pid sname).2 =
          .error (.thrown ("Status option \"" ++ sname ++ "\" not found in Status field"))) ∧
    (∀ f o os, fields.find? (fun f => f.isSingleSelect && f.name == "Status") = some f →
        f.options.filter (fun o => o.name == sname) = o :: os →
        (fetchStatusFieldDetails ok pid sname).2 = .ok (f.id, o.id) ∧ o.name = sname) := by
  refine ⟨?_, ?_, ?_⟩
  · intro hno
    have hfindnone : fields.find? (fun f => f.isSingleSelect && f.name == "Status") = none := by
      rw [List.find?_eq_none]
      intro x hx
      have := hno x hx
      simp only [Bool.and_eq_true, beq_iff_eq, not_and]
      intro h1 h2
      exact this ⟨h1, h2⟩
    simp [fetchStatusFieldDetails, h, fieldQueryResponseFor, fieldOf, hfindnone]
  · intro f hfind hno
    have hfilter : f.options.filter (fun o => o.name == sname) = [] := by
      rw [List.filter_eq_nil_iff]
      intro o ho
      simpa using hno o ho
    simp [fetchStatusFieldDetails, h, fieldQueryResponseFor, fieldOf, hfind,
          firstOptionOf, hfilter]
  · intro f o os hfind hfilter
    refine ⟨?_, ?_⟩
    · simp [fetchStatusFieldDetails, h, fieldQueryResponseFor, fieldOf, hfind,
            firstOptionOf, hfilter]
    · have ho : o ∈ f.options.filter (fun o => o.name == sname) := by
        rw [hfilter]; exact List.mem_cons_self o os
      have := List.of_mem_filter ho
      simpa using this

/-- Witness for `fetchStatusFieldDetails_contract`: the `Done` option of the
`Status` field of `doneFields` resolves to `F1` / `O_done`. -/
theorem fetchStatusFieldDetails_contract_witness :
    (fetchStatusFieldDetails (happyOctokit itemInProgress) "PVT_1" "Done").2 =
      .ok ("F1", "O_done") ∧ ("Done" : String) = "Done" :=
  (fetchStatusFieldDetails_contract (happyOctokit itemInProgress) "PVT_1" "Done"
    doneFields rfl).2.2 ⟨"F1", "Status", true, [doneOption, ⟨"O_prog", "In Progress"⟩]⟩
    doneOption [] (by decide) (by decide)

end MoveToTop
